import Mathlib

/-
  Verification of the foreign-table cache-refresh subsystem
  (DataMgr/ForeignStorage/ForeignTableRefresh.cpp).

  The refresh operation is embedded as a pure state-passing function over an
  explicit catalog/cache state, returning an `Except` value for the thrown
  exception, the post state, and a trace of the externally visible calls it
  makes, in order.  The scheduler is embedded as a state machine on a record
  of its static members, and one sweep of its background loop as a pure
  function over the catalogs it would visit.
-/

namespace ForeignStorage

/-- A chunk key is a vector of integers; the first two entries are the
database id and the table id (`ChunkKey table_key{dbId, tableId}`). -/
abbrev ChunkKey := List Nat

namespace StorageType

/-- `StorageType::FOREIGN_TABLE` tag compared against `td->storageType`. -/
def FOREIGN_TABLE : String := "FOREIGN_TABLE"

end StorageType

/-- The fields of the catalog table descriptor consumed by the refresh code:
identity and storage kind. -/
structure TableDescriptor where
  tableId : Nat
  tableName : String
  storageType : String
deriving DecidableEq, Repr

/-- A C++ exception as observed by a caller: its dynamic type and its
`what()` message. -/
structure ExcInfo where
  excType : String
  msg : String
deriving DecidableEq, Repr

/-- The two cache tiers named in `deleteChunksWithPrefix` calls. -/
inductive MemoryLevel
  | CPU_LEVEL
  | GPU_LEVEL
deriving DecidableEq, Repr

/-- Outcome of the external `refreshTable` call, which is an external
collaborator: it either returns, throws a `PostEvictionRefreshException`
wrapping an original cause, or throws some other exception. -/
inductive FetchOutcome
  | success
  | postEvictionException (orig : ExcInfo)
  | otherException (e : ExcInfo)
deriving DecidableEq, Repr

/-- Trace of the externally visible calls `refresh_foreign_table` makes. -/
inductive Event
  | acquireSchemaLock (table_name : String)
  | releaseSchemaLock (table_name : String)
  | removeFragmenterForTable (tableId : Nat)
  | deleteChunksWithPrefixFrom (key : ChunkKey) (level : MemoryLevel)
  | refreshTable (key : ChunkKey) (evict_cached_entries : Bool)
  | updateForeignTableRefreshTimes (tableId : Nat)
deriving DecidableEq, Repr

/-- The state touched by a refresh: the catalog of one database, the table
descriptors, the set of tables holding cached fragment metadata, the cached
chunks of the two tiers, and the recorded refresh times (tableId paired with
the logical time of recording; `clock` advances on each recording). -/
structure DBState where
  dbId : Nat
  tables : List TableDescriptor
  fragmenterTables : List Nat
  cpuChunks : List ChunkKey
  gpuChunks : List ChunkKey
  lastRefreshTime : List (Nat × Nat)
  clock : Nat
deriving DecidableEq, Repr

/-- `chunkHasKeyStart key c` holds when `key` is an initial segment of `c`:
the prefix match used by `deleteChunksWithPrefix` to select exactly the
chunks owned by the given table. -/
def chunkHasKeyStart (key c : ChunkKey) : Bool :=
  List.isPrefixOf key c

/-- Modelled from the spec: `DataMgr::deleteChunksWithPrefix` (the data
manager is an external collaborator) evicts every cached chunk whose key
starts with the given key from the named memory tier. -/
def deleteChunksWithPrefixAt (st : DBState) (key : ChunkKey) : MemoryLevel → DBState
  | MemoryLevel.CPU_LEVEL =>
      { st with cpuChunks := st.cpuChunks.filter (fun c => ! chunkHasKeyStart key c) }
  | MemoryLevel.GPU_LEVEL =>
      { st with gpuChunks := st.gpuChunks.filter (fun c => ! chunkHasKeyStart key c) }

/-- Modelled from the spec: `Catalog::removeFragmenterForTable` drops the
cached fragment-layout metadata of one table. -/
def removeFragmenterForTable (st : DBState) (tableId : Nat) : DBState :=
  { st with fragmenterTables := st.fragmenterTables.filter (fun i => i != tableId) }

/-- Modelled from the spec: `Catalog::updateForeignTableRefreshTimes` records
a fresh last-refreshed timestamp for the table in the catalog. -/
def updateForeignTableRefreshTimes (st : DBState) (tableId : Nat) : DBState :=
  { st with
    lastRefreshTime :=
      (tableId, st.clock) :: st.lastRefreshTime.filter (fun p => p.1 != tableId),
    clock := st.clock + 1 }

/-- The recorded refresh time of a table, if any. -/
def lookupRefreshTime (st : DBState) (tableId : Nat) : Option Nat :=
  (st.lastRefreshTime.find? (fun p => p.1 == tableId)).map Prod.snd

/-- The `std::runtime_error` thrown when the table is not a foreign table. -/
def notForeignTableError (table_name : String) : ExcInfo :=
  { excType := "std::runtime_error",
    msg := table_name ++
      " is not a foreign table. Refreshes are applicable to only foreign tables." }

/-- Modelled from the spec: the NotFound error surfaced from the catalog when
`acquireTableDescriptor` cannot resolve the name (the lock manager is an
external collaborator). -/
def tableNotFoundError (table_name : String) : ExcInfo :=
  { excType := "Catalog_Namespace::TableNotFoundException",
    msg := "Table " ++ table_name ++ " does not exist." }

/-- The schema lock is scope-bound (RAII): it is acquired on entry and
released on every exit path, so every trace is bracketed by the two lock
events. -/
def wrapLock (table_name : String) (evs : List Event) : List Event :=
  Event.acquireSchemaLock table_name :: (evs ++ [Event.releaseSchemaLock table_name])

/-- Embedding of `foreign_storage::refresh_foreign_table`.  The external
`refreshTable` call is an oracle argument `fetch`; the function returns the
thrown exception (if any), the post state, and the ordered trace of external
calls.  `PostEvictionRefreshException` is modelled from the spec as carrying
the original cause verbatim, so `e.getOriginalException()` is that cause. -/
def refresh_foreign_table (st : DBState) (table_name : String)
    (evict_cached_entries : Bool) (fetch : FetchOutcome) :
    Except ExcInfo Unit × DBState × List Event :=
  match st.tables.find? (fun td => td.tableName == table_name) with
  | none =>
      (Except.error (tableNotFoundError table_name), st, wrapLock table_name [])
  | some td =>
      if td.storageType ≠ StorageType.FOREIGN_TABLE then
        (Except.error (notForeignTableError table_name), st, wrapLock table_name [])
      else
        let st1 := removeFragmenterForTable st td.tableId
        let table_key : ChunkKey := [st.dbId, td.tableId]
        let st2 := deleteChunksWithPrefixAt st1 table_key MemoryLevel.CPU_LEVEL
        let st3 := deleteChunksWithPrefixAt st2 table_key MemoryLevel.GPU_LEVEL
        let evs := [Event.removeFragmenterForTable td.tableId,
                    Event.deleteChunksWithPrefixFrom table_key MemoryLevel.CPU_LEVEL,
                    Event.deleteChunksWithPrefixFrom table_key MemoryLevel.GPU_LEVEL,
                    Event.refreshTable table_key evict_cached_entries]
        match fetch with
        | FetchOutcome.success =>
            (Except.ok (), updateForeignTableRefreshTimes st3 td.tableId,
             wrapLock table_name
               (evs ++ [Event.updateForeignTableRefreshTimes td.tableId]))
        | FetchOutcome.postEvictionException orig =>
            (Except.error orig, updateForeignTableRefreshTimes st3 td.tableId,
             wrapLock table_name
               (evs ++ [Event.updateForeignTableRefreshTimes td.tableId]))
        | FetchOutcome.otherException e =>
            (Except.error e, st3, wrapLock table_name evs)

/-- The log line emitted by the scheduler when a refresh of one table fails:
`LOG(ERROR) << "Scheduled refresh for table \"" << name << "\" resulted in an
error. " << e.what()`. -/
def scheduleErrorLog (table_name : String) (e : ExcInfo) : String :=
  "Scheduled refresh for table \x22" ++ table_name ++
    "\x22 resulted in an error. " ++ e.msg

/-- The scheduler state: its static members `is_scheduler_running_`,
`has_refreshed_table_`, `thread_wait_duration_` (in seconds), together with
whether the background thread is live (`scheduler_thread_` joinable). -/
structure SchedState where
  is_scheduler_running : Bool
  has_refreshed_table : Bool
  thread_wait_duration : Nat
  threadActive : Bool
deriving DecidableEq, Repr

/-- The initial values of the scheduler statics. -/
def initialSchedState : SchedState :=
  { is_scheduler_running := false
    has_refreshed_table := false
    thread_wait_duration := 60
    threadActive := false }

/-- Externally visible actions of `start` and `stop`: spawning the background
thread, signalling the condition variable, and joining the thread. -/
inductive SchedEvent
  | spawnThread
  | notifyOne
  | joinThread
deriving DecidableEq, Repr

namespace ForeignTableRefreshScheduler

/-- Embedding of `ForeignTableRefreshScheduler::start`: only when the program
is running and the scheduler is not already running does it mark the
scheduler running and launch the background thread. -/
def start (st : SchedState) (is_program_running : Bool) :
    SchedState × List SchedEvent :=
  if is_program_running && ! st.is_scheduler_running then
    ({ st with is_scheduler_running := true, threadActive := true },
     [SchedEvent.spawnThread])
  else
    (st, [])

/-- Embedding of `ForeignTableRefreshScheduler::stop`: only when the
scheduler is running does it clear the flag, signal the condition variable,
and join the background thread (the join completing is modelled by
`threadActive := false`). -/
def stop (st : SchedState) : SchedState × List SchedEvent :=
  if st.is_scheduler_running then
    ({ st with is_scheduler_running := false, threadActive := false },
     [SchedEvent.notifyOne, SchedEvent.joinThread])
  else
    (st, [])

/-- Embedding of `ForeignTableRefreshScheduler::setWaitDuration`. -/
def setWaitDuration (st : SchedState) (duration_in_seconds : Nat) : SchedState :=
  { st with thread_wait_duration := duration_in_seconds }

/-- Embedding of `ForeignTableRefreshScheduler::isRunning`. -/
def isRunning (st : SchedState) : Bool :=
  st.is_scheduler_running

/-- Embedding of `ForeignTableRefreshScheduler::hasRefreshedTable`. -/
def hasRefreshedTable (st : SchedState) : Bool :=
  st.has_refreshed_table

/-- Embedding of `ForeignTableRefreshScheduler::resetHasRefreshedTable`. -/
def resetHasRefreshedTable (st : SchedState) : SchedState :=
  { st with has_refreshed_table := false }

end ForeignTableRefreshScheduler

/-- One catalog as seen by one sweep of the scheduler loop: its database
state, the result of `getAllForeignTablesForRefresh` (table names due for
refresh, in enumeration order), and the oracle for each external
`refreshTable` call made while refreshing its tables. -/
structure SweepCatalog where
  db : DBState
  dueTables : List String
  fetch : String → FetchOutcome

/-- What one sweep produces: the final `has_refreshed_table_` value, the
error-log lines in order, the tables attempted in order, and the outcome of
each attempted refresh in the same order. -/
structure SweepOut where
  hrt : Bool
  logs : List String
  attempted : List String
  outcomes : List (Except ExcInfo Unit)
deriving Repr

/-- The log line (if any) the catch clause produces for one attempt. -/
def logOfOutcome : String × Except ExcInfo Unit → Option String
  | (_, Except.ok _) => none
  | (t, Except.error e) => some (scheduleErrorLog t e)

/-- The inner loop of one sweep over the tables of one catalog: the
cancellation flags are read before each table (modelled by `running`, the
conjunction of `is_program_running` and `is_scheduler_running_` held fixed for
the sweep); each refresh is attempted with `evict_cached_entries = false`
inside a try/catch whose handler only logs, and `has_refreshed_table_` is set
after every attempt. -/
def sweepTables (running : Bool) (fetch : String → FetchOutcome) :
    DBState → Bool → List String → DBState × SweepOut
  | st, hrt, [] => (st, { hrt := hrt, logs := [], attempted := [], outcomes := [] })
  | st, hrt, t :: ts =>
    if running then
      let r := refresh_foreign_table st t false (fetch t)
      let rest := sweepTables running fetch r.2.1 true ts
      (rest.1,
       { hrt := rest.2.hrt
         logs := (logOfOutcome (t, r.1)).toList ++ rest.2.logs
         attempted := t :: rest.2.attempted
         outcomes := r.1 :: rest.2.outcomes })
    else
      (st, { hrt := hrt, logs := [], attempted := [], outcomes := [] })

/-- The outer loop of one sweep: every catalog of `getCatalogsForAllDbs` is
visited in order, with a cancellation check before each. -/
def sweepCatalogs (running : Bool) : Bool → List SweepCatalog → SweepOut
  | hrt, [] => { hrt := hrt, logs := [], attempted := [], outcomes := [] }
  | hrt, cat :: cats =>
    if running then
      let r := sweepTables running cat.fetch cat.db hrt cat.dueTables
      let rest := sweepCatalogs running r.2.hrt cats
      { hrt := rest.hrt
        logs := r.2.logs ++ rest.logs
        attempted := r.2.attempted ++ rest.attempted
        outcomes := r.2.outcomes ++ rest.outcomes }
    else
      { hrt := hrt, logs := [], attempted := [], outcomes := [] }

/-- A concrete foreign table used by witnesses. -/
def sampleTD : TableDescriptor :=
  { tableId := 7, tableName := "t", storageType := StorageType.FOREIGN_TABLE }

/-- A concrete non-foreign table used by witnesses. -/
def sampleLocalTD : TableDescriptor :=
  { tableId := 9, tableName := "u", storageType := "" }

/-- A concrete database state used by witnesses. -/
def sampleDB : DBState :=
  { dbId := 1
    tables := [sampleTD, sampleLocalTD]
    fragmenterTables := [7, 9]
    cpuChunks := [[1, 7, 0, 0], [1, 7, 0, 1], [1, 9, 0, 0]]
    gpuChunks := [[1, 7, 1, 0]]
    lastRefreshTime := []
    clock := 0 }

/-- A concrete original cause carried by a post-eviction failure. -/
def sampleOrigError : ExcInfo :=
  { excType := "foreign_storage::ForeignStorageException", msg := "fetch failed" }

/-- Claim C1: when the refetch fails with the post-eviction wrapper, the
refresh records the refresh timestamp for the table and raises the wrapped
original cause itself (type and message), never the wrapper. -/
theorem refresh_post_eviction_unwraps
    (st : DBState) (table_name : String) (evict : Bool) (td : TableDescriptor)
    (orig : ExcInfo)
    (hfind : st.tables.find? (fun t => t.tableName == table_name) = some td)
    (hforeign : td.storageType = StorageType.FOREIGN_TABLE) :
    (refresh_foreign_table st table_name evict
        (FetchOutcome.postEvictionException orig)).1 = Except.error orig ∧
    Event.updateForeignTableRefreshTimes td.tableId ∈
      (refresh_foreign_table st table_name evict
        (FetchOutcome.postEvictionException orig)).2.2 ∧
    lookupRefreshTime
      (refresh_foreign_table st table_name evict
        (FetchOutcome.postEvictionException orig)).2.1 td.tableId
      = some st.clock := by
  simp [refresh_foreign_table, hfind, hforeign, wrapLock, lookupRefreshTime,
        updateForeignTableRefreshTimes, deleteChunksWithPrefixAt,
        removeFragmenterForTable, List.find?]

/-- Witness for C1 at a concrete state. -/
theorem refresh_post_eviction_unwraps_witness :
    (refresh_foreign_table sampleDB "t" false
        (FetchOutcome.postEvictionException sampleOrigError)).1 =
      Except.error sampleOrigError ∧
    Event.updateForeignTableRefreshTimes sampleTD.tableId ∈
      (refresh_foreign_table sampleDB "t" false
        (FetchOutcome.postEvictionException sampleOrigError)).2.2 ∧
    lookupRefreshTime
      (refresh_foreign_table sampleDB "t" false
        (FetchOutcome.postEvictionException sampleOrigError)).2.1 sampleTD.tableId
      = some sampleDB.clock :=
  refresh_post_eviction_unwraps sampleDB "t" false sampleTD sampleOrigError rfl rfl

/-- Claim C2: refreshing a table whose storage kind is not foreign raises the
not-a-foreign-table error, leaves the whole state unchanged (no metadata
drop, no eviction, no refetch, no timestamp), and still releases the lock. -/
theorem refresh_not_foreign_no_state_change
    (st : DBState) (table_name : String) (evict : Bool) (fetch : FetchOutcome)
    (td : TableDescriptor)
    (hfind : st.tables.find? (fun t => t.tableName == table_name) = some td)
    (hne : td.storageType ≠ StorageType.FOREIGN_TABLE) :
    (refresh_foreign_table st table_name evict fetch).1 =
      Except.error (notForeignTableError table_name) ∧
    (refresh_foreign_table st table_name evict fetch).2.1 = st ∧
    (refresh_foreign_table st table_name evict fetch).2.2 =
      [Event.acquireSchemaLock table_name, Event.releaseSchemaLock table_name] := by
  simp [refresh_foreign_table, hfind, hne, wrapLock]

/-- Witness for C2 at a concrete state. -/
theorem refresh_not_foreign_no_state_change_witness :
    (refresh_foreign_table sampleDB "u" true FetchOutcome.success).1 =
      Except.error (notForeignTableError "u") ∧
    (refresh_foreign_table sampleDB "u" true FetchOutcome.success).2.1 = sampleDB ∧
    (refresh_foreign_table sampleDB "u" true FetchOutcome.success).2.2 =
      [Event.acquireSchemaLock "u", Event.releaseSchemaLock "u"] :=
  refresh_not_foreign_no_state_change sampleDB "u" true FetchOutcome.success
    sampleLocalTD rfl (by decide)

/-- Claim C3: a refetch failure other than the post-eviction wrapper is
propagated unchanged, and no refresh timestamp is recorded. -/
theorem refresh_other_failure_propagates
    (st : DBState) (table_name : String) (evict : Bool) (td : TableDescriptor)
    (e : ExcInfo)
    (hfind : st.tables.find? (fun t => t.tableName == table_name) = some td)
    (hforeign : td.storageType = StorageType.FOREIGN_TABLE) :
    (refresh_foreign_table st table_name evict
        (FetchOutcome.otherException e)).1 = Except.error e ∧
    (refresh_foreign_table st table_name evict
        (FetchOutcome.otherException e)).2.1.lastRefreshTime = st.lastRefreshTime ∧
    Event.updateForeignTableRefreshTimes td.tableId ∉
      (refresh_foreign_table st table_name evict
        (FetchOutcome.otherException e)).2.2 := by
  simp [refresh_foreign_table, hfind, hforeign, wrapLock,
        deleteChunksWithPrefixAt, removeFragmenterForTable]

/-- Witness for C3 at a concrete state. -/
theorem refresh_other_failure_propagates_witness :
    (refresh_foreign_table sampleDB "t" false
        (FetchOutcome.otherException sampleOrigError)).1 =
      Except.error sampleOrigError ∧
    (refresh_foreign_table sampleDB "t" false
        (FetchOutcome.otherException sampleOrigError)).2.1.lastRefreshTime =
      sampleDB.lastRefreshTime ∧
    Event.updateForeignTableRefreshTimes sampleTD.tableId ∉
      (refresh_foreign_table sampleDB "t" false
        (FetchOutcome.otherException sampleOrigError)).2.2 :=
  refresh_other_failure_propagates sampleDB "t" false sampleTD sampleOrigError
    rfl rfl

/-- Claim C4: a successful refresh of a foreign table performs exactly these
steps in this order: drop fragment metadata, evict the chunks with the
(dbId, tableId) key from the CPU tier and the GPU tier, call the external
refetch passing through the eviction flag, and record a fresh timestamp. -/
theorem refresh_success_steps_in_order
    (st : DBState) (table_name : String) (evict : Bool) (td : TableDescriptor)
    (hfind : st.tables.find? (fun t => t.tableName == table_name) = some td)
    (hforeign : td.storageType = StorageType.FOREIGN_TABLE) :
    (refresh_foreign_table st table_name evict FetchOutcome.success).1 =
      Except.ok () ∧
    (refresh_foreign_table st table_name evict FetchOutcome.success).2.2 =
      wrapLock table_name
        [Event.removeFragmenterForTable td.tableId,
         Event.deleteChunksWithPrefixFrom [st.dbId, td.tableId]
           MemoryLevel.CPU_LEVEL,
         Event.deleteChunksWithPrefixFrom [st.dbId, td.tableId]
           MemoryLevel.GPU_LEVEL,
         Event.refreshTable [st.dbId, td.tableId] evict,
         Event.updateForeignTableRefreshTimes td.tableId] ∧
    (refresh_foreign_table st table_name evict FetchOutcome.success).2.1.cpuChunks =
      st.cpuChunks.filter
        (fun c => ! chunkHasKeyStart [st.dbId, td.tableId] c) ∧
    (refresh_foreign_table st table_name evict FetchOutcome.success).2.1.gpuChunks =
      st.gpuChunks.filter
        (fun c => ! chunkHasKeyStart [st.dbId, td.tableId] c) ∧
    lookupRefreshTime
      (refresh_foreign_table st table_name evict FetchOutcome.success).2.1
      td.tableId = some st.clock := by
  simp [refresh_foreign_table, hfind, hforeign, wrapLock, lookupRefreshTime,
        updateForeignTableRefreshTimes, deleteChunksWithPrefixAt,
        removeFragmenterForTable, List.find?]

/-- Witness for C4 at a concrete state. -/
theorem refresh_success_steps_in_order_witness :
    (refresh_foreign_table sampleDB "t" true FetchOutcome.success).1 =
      Except.ok () ∧
    (refresh_foreign_table sampleDB "t" true FetchOutcome.success).2.2 =
      wrapLock "t"
        [Event.removeFragmenterForTable sampleTD.tableId,
         Event.deleteChunksWithPrefixFrom [sampleDB.dbId, sampleTD.tableId]
           MemoryLevel.CPU_LEVEL,
         Event.deleteChunksWithPrefixFrom [sampleDB.dbId, sampleTD.tableId]
           MemoryLevel.GPU_LEVEL,
         Event.refreshTable [sampleDB.dbId, sampleTD.tableId] true,
         Event.updateForeignTableRefreshTimes sampleTD.tableId] ∧
    (refresh_foreign_table sampleDB "t" true FetchOutcome.success).2.1.cpuChunks =
      sampleDB.cpuChunks.filter
        (fun c => ! chunkHasKeyStart [sampleDB.dbId, sampleTD.tableId] c) ∧
    (refresh_foreign_table sampleDB "t" true FetchOutcome.success).2.1.gpuChunks =
      sampleDB.gpuChunks.filter
        (fun c => ! chunkHasKeyStart [sampleDB.dbId, sampleTD.tableId] c) ∧
    lookupRefreshTime
      (refresh_foreign_table sampleDB "t" true FetchOutcome.success).2.1
      sampleTD.tableId = some sampleDB.clock :=
  refresh_success_steps_in_order sampleDB "t" true sampleTD rfl rfl

/-- Under an uncancelled sweep, the inner loop attempts every due table. -/
theorem sweepTables_attempted (f : String → FetchOutcome) :
    ∀ (ts : List String) (st : DBState) (hrt : Bool),
      (sweepTables true f st hrt ts).2.attempted = ts
  | [], _, _ => rfl
  | t :: ts, st, hrt => by
    simp [sweepTables, sweepTables_attempted f ts]

/-- The inner loop records one outcome per attempted table. -/
theorem sweepTables_lengths (f : String → FetchOutcome) :
    ∀ (ts : List String) (st : DBState) (hrt : Bool),
      (sweepTables true f st hrt ts).2.attempted.length =
        (sweepTables true f st hrt ts).2.outcomes.length
  | [], _, _ => rfl
  | t :: ts, st, hrt => by
    simp [sweepTables, sweepTables_lengths f ts]

/-- The inner loop logs exactly the failed attempts, each with the table name
and the error text, and swallows the error. -/
theorem sweepTables_logs (f : String → FetchOutcome) :
    ∀ (ts : List String) (st : DBState) (hrt : Bool),
      (sweepTables true f st hrt ts).2.logs =
        ((sweepTables true f st hrt ts).2.attempted.zip
          (sweepTables true f st hrt ts).2.outcomes).filterMap logOfOutcome
  | [], _, _ => rfl
  | t :: ts, st, hrt => by
    have ih := sweepTables_logs f ts (refresh_foreign_table st t false (f t)).2.1 true
    cases hres : (refresh_foreign_table st t false (f t)).1 with
    | ok u => simp [sweepTables, hres, logOfOutcome, ih]
    | error e => simp [sweepTables, hres, logOfOutcome, ih]

/-- Once the did-work flag is set, the inner loop keeps it set. -/
theorem sweepTables_hrt_mono (f : String → FetchOutcome) :
    ∀ (ts : List String) (st : DBState),
      (sweepTables true f st true ts).2.hrt = true
  | [], _ => rfl
  | t :: ts, st => by
    simp [sweepTables, sweepTables_hrt_mono f ts]

/-- Attempting at least one table sets the did-work flag. -/
theorem sweepTables_hrt_set (f : String → FetchOutcome) (ts : List String)
    (st : DBState) (hrt : Bool) (h : ts ≠ []) :
    (sweepTables true f st hrt ts).2.hrt = true := by
  cases ts with
  | nil => exact absurd rfl h
  | cons t ts => simp [sweepTables, sweepTables_hrt_mono]

/-- Under an uncancelled sweep, the outer loop attempts every due table of
every catalog, in enumeration order. -/
theorem sweepCatalogs_attempted :
    ∀ (cats : List SweepCatalog) (hrt : Bool),
      (sweepCatalogs true hrt cats).attempted =
        (cats.map SweepCatalog.dueTables).flatten
  | [], _ => rfl
  | cat :: cats, hrt => by
    simp [sweepCatalogs, sweepTables_attempted, sweepCatalogs_attempted cats]

/-- The outer loop records one outcome per attempted table. -/
theorem sweepCatalogs_lengths :
    ∀ (cats : List SweepCatalog) (hrt : Bool),
      (sweepCatalogs true hrt cats).attempted.length =
        (sweepCatalogs true hrt cats).outcomes.length
  | [], _ => rfl
  | cat :: cats, hrt => by
    simp [sweepCatalogs, sweepTables_lengths, sweepCatalogs_lengths cats]

/-- The outer loop logs exactly the failed attempts. -/
theorem sweepCatalogs_logs :
    ∀ (cats : List SweepCatalog) (hrt : Bool),
      (sweepCatalogs true hrt cats).logs =
        ((sweepCatalogs true hrt cats).attempted.zip
          (sweepCatalogs true hrt cats).outcomes).filterMap logOfOutcome
  | [], _ => rfl
  | cat :: cats, hrt => by
    have hlen := sweepTables_lengths cat.fetch cat.dueTables cat.db hrt
    have ih := sweepCatalogs_logs cats
      (sweepTables true cat.fetch cat.db hrt cat.dueTables).2.hrt
    simp [sweepCatalogs, sweepTables_logs, ih, List.zip_append hlen,
          List.filterMap_append]

/-- Once the did-work flag is set, the outer loop keeps it set. -/
theorem sweepCatalogs_hrt_mono :
    ∀ (cats : List SweepCatalog),
      (sweepCatalogs true true cats).hrt = true
  | [] => rfl
  | cat :: cats => by
    simp [sweepCatalogs, sweepTables_hrt_mono, sweepCatalogs_hrt_mono cats]

/-- Claim C5: in one uncancelled sweep, every due table of every database is
attempted, regardless of earlier failures, and the scheduler log holds one
line per failed attempt, built from the table name and the error text, in
order; no error escapes the sweep. -/
theorem scheduler_sweep_isolates_failures (cats : List SweepCatalog)
    (hrt : Bool) :
    (sweepCatalogs true hrt cats).attempted =
      (cats.map SweepCatalog.dueTables).flatten ∧
    (sweepCatalogs true hrt cats).logs =
      ((sweepCatalogs true hrt cats).attempted.zip
        (sweepCatalogs true hrt cats).outcomes).filterMap logOfOutcome :=
  ⟨sweepCatalogs_attempted cats hrt, sweepCatalogs_logs cats hrt⟩

/-- Claim C7: `stop` is a no-op when the scheduler is not running; when it is
running, `stop` clears the running flag, signals the condition variable, and
joins the background thread before returning, so no thread remains live. -/
theorem scheduler_stop_behavior (s : SchedState) :
    (s.is_scheduler_running = false →
      ForeignTableRefreshScheduler.stop s = (s, [])) ∧
    (s.is_scheduler_running = true →
      (ForeignTableRefreshScheduler.stop s).1.is_scheduler_running = false ∧
      (ForeignTableRefreshScheduler.stop s).1.threadActive = false ∧
      (ForeignTableRefreshScheduler.stop s).2 =
        [SchedEvent.notifyOne, SchedEvent.joinThread]) := by
  cases h : s.is_scheduler_running <;>
    simp [ForeignTableRefreshScheduler.stop, h]

/-- A concrete scheduler state with the background thread live. -/
def runningSchedState : SchedState :=
  { is_scheduler_running := true
    has_refreshed_table := true
    thread_wait_duration := 60
    threadActive := true }

/-- Witness for C7 at concrete states, one not running and one running. -/
theorem scheduler_stop_behavior_witness :
    ForeignTableRefreshScheduler.stop initialSchedState = (initialSchedState, []) ∧
    ((ForeignTableRefreshScheduler.stop runningSchedState).1.is_scheduler_running
        = false ∧
      (ForeignTableRefreshScheduler.stop runningSchedState).1.threadActive = false ∧
      (ForeignTableRefreshScheduler.stop runningSchedState).2 =
        [SchedEvent.notifyOne, SchedEvent.joinThread]) :=
  ⟨(scheduler_stop_behavior initialSchedState).1 rfl,
   (scheduler_stop_behavior runningSchedState).2 rfl⟩

/-- Claim C8: `start` launches the background thread only when the program is
alive and the scheduler is not already running; otherwise it is a no-op, and
a second `start` right after a first one never spawns a second thread. -/
theorem scheduler_start_once (s : SchedState) (alive : Bool) :
    (¬ (alive = true ∧ s.is_scheduler_running = false) →
      ForeignTableRefreshScheduler.start s alive = (s, [])) ∧
    (alive = true → s.is_scheduler_running = false →
      (ForeignTableRefreshScheduler.start s alive).1.is_scheduler_running = true ∧
      (ForeignTableRefreshScheduler.start s alive).1.threadActive = true ∧
      (ForeignTableRefreshScheduler.start s alive).2 = [SchedEvent.spawnThread]) ∧
    ForeignTableRefreshScheduler.start
        (ForeignTableRefreshScheduler.start s alive).1 alive =
      ((ForeignTableRefreshScheduler.start s alive).1, []) := by
  cases halive : alive <;> cases hrun : s.is_scheduler_running <;>
    simp [ForeignTableRefreshScheduler.start, halive, hrun]

/-- Witness for C8: starting from the initial state with the program alive
spawns one thread, and an immediate second `start` is a no-op. -/
theorem scheduler_start_once_witness :
    ((ForeignTableRefreshScheduler.start initialSchedState true).1.is_scheduler_running
        = true ∧
      (ForeignTableRefreshScheduler.start initialSchedState true).1.threadActive
        = true ∧
      (ForeignTableRefreshScheduler.start initialSchedState true).2 =
        [SchedEvent.spawnThread]) ∧
    ForeignTableRefreshScheduler.start
        (ForeignTableRefreshScheduler.start initialSchedState true).1 true =
      ((ForeignTableRefreshScheduler.start initialSchedState true).1, []) :=
  ⟨(scheduler_start_once initialSchedState true).2.1 rfl rfl,
   (scheduler_start_once initialSchedState true).2.2⟩

/-- Claim C9: any attempted refresh during a sweep, successful or failed,
sets the did-work flag; `hasRefreshedTable` reads the flag and
`resetHasRefreshedTable` clears it. -/
theorem scheduler_did_work_flag (cats : List SweepCatalog) (hrt : Bool)
    (s : SchedState)
    (h : (cats.map SweepCatalog.dueTables).flatten ≠ []) :
    (sweepCatalogs true hrt cats).hrt = true ∧
    ForeignTableRefreshScheduler.hasRefreshedTable s = s.has_refreshed_table ∧
    (ForeignTableRefreshScheduler.resetHasRefreshedTable s).has_refreshed_table
      = false := by
  refine ⟨?_, rfl, rfl⟩
  induction cats generalizing hrt with
  | nil => exact absurd rfl h
  | cons cat cats ih =>
    by_cases hdue : cat.dueTables = []
    · have hrest : (cats.map SweepCatalog.dueTables).flatten ≠ [] := by
        simpa [hdue] using h
      simp [sweepCatalogs, ih _ hrest]
    · have hset := sweepTables_hrt_set cat.fetch cat.dueTables cat.db hrt hdue
      simp [sweepCatalogs, hset, sweepCatalogs_hrt_mono]

/-- A catalog whose every refetch fails, used by the C9 witness: the flag is
set even though every attempt fails. -/
def sampleSweepCatalog : SweepCatalog :=
  { db := sampleDB
    dueTables := ["t", "u"]
    fetch := fun _ => FetchOutcome.otherException sampleOrigError }

/-- Witness for C9 at a concrete sweep where every attempt fails. -/
theorem scheduler_did_work_flag_witness :
    (sweepCatalogs true false [sampleSweepCatalog]).hrt = true ∧
    ForeignTableRefreshScheduler.hasRefreshedTable runningSchedState =
      runningSchedState.has_refreshed_table ∧
    (ForeignTableRefreshScheduler.resetHasRefreshedTable
        runningSchedState).has_refreshed_table = false :=
  scheduler_did_work_flag [sampleSweepCatalog] false runningSchedState
    (by simp [sampleSweepCatalog])

/-- Claim C10: `stop` leaves every piece of scheduler state other than the
running flag and the thread handle unchanged: the did-work flag and the
configured wait interval survive it. -/
theorem scheduler_stop_frame (s : SchedState) :
    (ForeignTableRefreshScheduler.stop s).1.has_refreshed_table =
      s.has_refreshed_table ∧
    (ForeignTableRefreshScheduler.stop s).1.thread_wait_duration =
      s.thread_wait_duration := by
  cases h : s.is_scheduler_running <;>
    simp [ForeignTableRefreshScheduler.stop, h]

end ForeignStorage
